import Mathlib

/-!
Shallow embedding of the two labeling tools of this repository:
`src/backend/custom_picker.py` (click-to-sample tool) and
`src/backend/sampler_sentinel.py` (random Sentinel-2 sampler).

Both tools share the same record-building code: given the feature records
returned by the remote backend sample call, each feature is turned into a
record (longitude, latitude, trimmed caption, 64-entry embedding list read
from the band properties, and the two sampling parameters), appended to the
in-memory `records` list, and the JSON file and the parquet file are fully
rewritten from that list.

Numeric values carried opaquely by the code (coordinates, embedding band
values) are modeled as `Int`; the feature property dictionary is modeled as
an association list with `List.lookup` playing the role of `dict.get`
(returning `none` for a missing key). File contents are modeled at the
record level: the JSON file as the list of records it serializes, the
parquet file as the list of rows of the written table.
-/

/-- One feature record returned by `alpha_img.sample(...).getInfo()["features"]`:
a point geometry (longitude, latitude) and a property dictionary mapping band
names to values. -/
structure Feature where
  lon : Int
  lat : Int
  properties : List (String × Int)
deriving DecidableEq

/-- One persisted labeled sample, as appended to `records` by both tools
(fields `lon`, `lat`, `caption`, `alphaearth`, `thumb_m`, `sample_scale`). -/
structure Record where
  lon : Int
  lat : Int
  caption : String
  alphaearth : List (Option Int)
  thumb_m : Nat
  sample_scale : Nat
deriving DecidableEq

/-- Python `str.strip()`: the string with leading and trailing whitespace
removed. (Defined on the character list so that it evaluates by kernel
reduction; `String.trim` of the core library is the same operation but its
`Substring` auxiliaries do not reduce.) -/
def strip (s : String) : String :=
  ⟨((s.data.dropWhile Char.isWhitespace).reverse.dropWhile Char.isWhitespace).reverse⟩

/-- `f["properties"].get(b)`: dictionary lookup returning `None` when the
band name is absent. -/
def lookupProp (props : List (String × Int)) (b : String) : Option Int :=
  props.lookup b

/-- The band name format string used by both tools. -/
def bandName (i : Nat) : String :=
  "A" ++ (if i < 10 then "0" ++ toString i else toString i)

/-- Both tools compute the same band name list for indices `0 ≤ i < 64`. -/
def band_names : List String := (List.range 64).map bandName

/-- The record built for one feature inside the save loop of either tool:
coordinates from the feature geometry, the stripped caption, the embedding
values looked up band by band (missing bands give `none`), and the two
sidebar sampling parameters. -/
def mkRecord (thumb sc : Nat) (caption : String) (f : Feature) : Record :=
  { lon := f.lon
    lat := f.lat
    caption := strip caption
    alphaearth := band_names.map (lookupProp f.properties)
    thumb_m := thumb
    sample_scale := sc }

/-- The success message both tools show after a save. -/
def successMessage (n : Nat) (caption : String) : String :=
  "✅ Saved " ++ toString n ++ " AlphaEarth vectors for \x27" ++ caption ++ "\x27"

/-- On-disk and in-memory state of the click-picker tool: the `records` list
and the two files it rewrites. The parquet table written by
`pq.write_table(pa.Table.from_pandas(pd.DataFrame(records)), PARQUET_PATH)`
carries all record fields, so its rows are modeled as full records. -/
structure PickerState where
  records : List Record
  jsonFile : List Record
  parquetFile : List Record
deriving DecidableEq

/-- The Save Sample button handler of the click-picker tool: build one record
per returned feature, append them to `records`, rewrite both files from the
updated list, and report the saved count. -/
def savePicker (thumb sc : Nat) (caption : String) (feats : List Feature)
    (st : PickerState) : PickerState × String :=
  let records := st.records ++ feats.map (mkRecord thumb sc caption)
  ({ records := records, jsonFile := records, parquetFile := records },
   successMessage feats.length caption)

/-- One row of the parquet table written by `save_parquet` of the sampler
tool, with the column selection of that function. -/
structure ParquetRow where
  lon : Int
  lat : Int
  caption : String
  thumb_m : Nat
  sample_scale : Nat
  alphaearth : List (Option Int)
deriving DecidableEq

/-- The row projection inside `save_parquet`. -/
def toParquetRow (r : Record) : ParquetRow :=
  { lon := r.lon
    lat := r.lat
    caption := r.caption
    thumb_m := r.thumb_m
    sample_scale := r.sample_scale
    alphaearth := r.alphaearth }

/-- `save_parquet(records, path)` of the sampler tool: write the table whose
rows project each record onto the six dataset columns. -/
def save_parquet (records : List Record) : List ParquetRow :=
  records.map toParquetRow

/-- State of the sampler tool: the `records` list and the two files. -/
structure SentinelState where
  records : List Record
  jsonFile : List Record
  parquetFile : List ParquetRow
deriving DecidableEq

/-- A message surfaced by the Submit handler of the sampler tool: either the
success banner or the empty-caption warning. -/
inductive SentMsg where
  | success (text : String)
  | warning (text : String)
deriving DecidableEq

/-- The Submit and Next button handler of the sampler tool. When the stripped
caption is nonempty it calls the backend sample, appends one record per
feature, rewrites both files and reports the count; otherwise it only warns
and touches nothing (the backend is never called). The backend sample call
is passed as a thunk so that the guard precedes it, as in the source. -/
def saveSentinel (thumb sc : Nat) (caption : String)
    (sample : Unit → List Feature) (st : SentinelState) :
    SentinelState × SentMsg :=
  if strip caption ≠ "" then
    let feats := sample ()
    let records := st.records ++ feats.map (mkRecord thumb sc caption)
    ({ records := records, jsonFile := records,
       parquetFile := save_parquet records },
     .success (successMessage feats.length caption))
  else
    (st, .warning "Enter a caption before submitting.")

/-- The data one loop iteration of `get_random_valid_point` obtains when its
two `getInfo` calls succeed: the random point coordinates and the mean B4
coverage value of the surrounding square (`none` when the reducer finds no
valid pixels). -/
structure Draw where
  lon : Int
  lat : Int
  b4 : Option Int
deriving DecidableEq

/-- Outcome of one loop iteration of `get_random_valid_point`. The body has
no try/except, so a raised exception (network error in either `getInfo`
call) is a distinct outcome from a completed draw. -/
inductive DrawOutcome where
  | throw : DrawOutcome
  | ok : Draw → DrawOutcome
deriving DecidableEq

/-- The loop of `get_random_valid_point`, over the sequence of iteration
outcomes: a completed draw with `val is not None` is returned; a draw with
no coverage moves on to the next try; an exception propagates (there is no
handler in the function); exhausting the tries returns the
`(None, None, None, None)` sentinel, modeled as `Except.ok none`. -/
def grvpLoop : List DrawOutcome → Except Unit (Option Draw)
  | [] => .ok none
  | .throw :: _ => .error ()
  | .ok d :: rest => if d.b4.isSome then .ok (some d) else grvpLoop rest

/-- `get_random_valid_point(max_tries=6)`: run the loop body at most
`max_tries` times, drawing outcome `i` at try `i`. -/
def get_random_valid_point (draws : Nat → DrawOutcome) (max_tries : Nat := 6) :
    Except Unit (Option Draw) :=
  grvpLoop ((List.range max_tries).map draws)

/-- The response obtained by `requests.get` inside `fetch_valid_thumbnail`
when no exception is raised: HTTP status code and content length. -/
structure ThumbResp where
  status : Nat
  contentLen : Nat
deriving DecidableEq

/-- Outcome of one loop iteration of `fetch_valid_thumbnail`: either any of
the calls in the try block raised (caught by the broad `except`, which
sleeps and retries), or a response came back. -/
inductive ThumbAttempt where
  | exn : ThumbAttempt
  | resp : ThumbResp → ThumbAttempt
deriving DecidableEq

/-- The loop of `fetch_valid_thumbnail`: a response with status 200 and more
than 10000 content bytes is returned as the `(url, img)` success; any other
response, and any caught exception, falls through to the next try;
exhausting the tries returns the `(None, None)` sentinel, modeled as
`none`. -/
def fetchLoop : List ThumbAttempt → Option ThumbResp
  | [] => none
  | .exn :: rest => fetchLoop rest
  | .resp r :: rest =>
      if r.status = 200 ∧ 10000 < r.contentLen then some r else fetchLoop rest

/-- `fetch_valid_thumbnail(square, tries=4, timeout=8)`: run the try body at
most `tries` times, with attempt outcome `i` at try `i`. Every exception is
caught inside the loop (with a fixed 0.5 s sleep before the next try), so
the function is total. -/
def fetch_valid_thumbnail (attempts : Nat → ThumbAttempt) (tries : Nat := 4) :
    Option ThumbResp :=
  fetchLoop ((List.range tries).map attempts)

/-! ## Helper lemmas -/

theorem dropWhile_dropWhile (p : α → Bool) (l : List α) :
    (l.dropWhile p).dropWhile p = l.dropWhile p := by
  have h := List.head?_dropWhile_not p l
  cases hh : (l.dropWhile p).head? with
  | none =>
    have : l.dropWhile p = [] := List.head?_eq_none_iff.mp hh
    simp [this]
  | some x =>
    rw [hh] at h
    cases hl : l.dropWhile p with
    | nil => simp
    | cons y ys =>
      rw [hl] at hh
      simp at hh
      subst hh
      simp [List.dropWhile_cons, h]

theorem dropWhile_reverse_dropWhile_reverse_self (p : α → Bool) (l : List α) :
    (((l.dropWhile p).reverse.dropWhile p).reverse).dropWhile p
      = ((l.dropWhile p).reverse.dropWhile p).reverse := by
  set m := (l.dropWhile p).reverse.dropWhile p with hm
  cases hmm : m with
  | nil => simp [hmm]
  | cons y ys =>
    have hsuf : m <:+ (l.dropWhile p).reverse := List.dropWhile_suffix p
    obtain ⟨pre, hpre⟩ := hsuf
    have hne : m ≠ [] := by simp [hmm]
    have h1 : m.getLast? = (l.dropWhile p).reverse.getLast? := by
      rw [← hpre]; exact (List.getLast?_append_of_ne_nil pre hne).symm
    have h2 : (l.dropWhile p).reverse.getLast? = (l.dropWhile p).head? := by simp
    have h3 := List.head?_dropWhile_not p l
    have h4 : m.reverse.head? = m.getLast? := by simp
    cases hh : (l.dropWhile p).head? with
    | none =>
      exfalso
      have hnil : l.dropWhile p = [] := List.head?_eq_none_iff.mp hh
      rw [hnil] at hpre
      simp at hpre
      exact hne hpre.2
    | some x =>
      rw [hh] at h3
      simp only [] at h3
      have hx : m.reverse.head? = some x := by rw [h4, h1, h2, hh]
      cases hrev : m.reverse with
      | nil => simp [hrev] at hx
      | cons z zs =>
        rw [hrev] at hx
        simp at hx
        rw [hmm] at hrev
        rw [hrev]
        simp [List.dropWhile_cons, hx, h3]

theorem trimData_idem (p : α → Bool) (l : List α) :
    (((((((l.dropWhile p).reverse.dropWhile p).reverse).dropWhile p).reverse).dropWhile p).reverse)
      = ((l.dropWhile p).reverse.dropWhile p).reverse := by
  rw [dropWhile_reverse_dropWhile_reverse_self p l]
  rw [List.reverse_reverse, dropWhile_dropWhile]

/-- Stripping is idempotent: a stripped caption carries no surrounding
whitespace to remove. -/
theorem strip_strip (s : String) : strip (strip s) = strip s :=
  congrArg String.mk (trimData_idem Char.isWhitespace s.data)

/-- Every record built by the save loops carries exactly 64 embedding
entries, one per band name. -/
theorem mkRecord_alphaearth_length (thumb sc : Nat) (caption : String)
    (f : Feature) : (mkRecord thumb sc caption f).alphaearth.length = 64 := by
  simp [mkRecord, band_names]

/-! ## Concrete inputs used by the witness theorems -/

def testFeat : Feature :=
  { lon := 3, lat := 7, properties := [("A00", 5), ("A01", 9)] }

def testRec : Record :=
  { lon := 0, lat := 0, caption := "old", alphaearth := [some 1]
    thumb_m := 500, sample_scale := 50 }

def pickerSt0 : PickerState :=
  { records := [testRec], jsonFile := [testRec], parquetFile := [testRec] }

def sentinelSt0 : SentinelState :=
  { records := [testRec], jsonFile := [testRec]
    parquetFile := save_parquet [testRec] }

example : bandName 3 = "A03" := by decide
example : bandName 42 = "A42" := by decide
example : band_names.length = 64 := by decide

/-! ## Claims -/

/-- C1: for every save action in either tool, the number of records appended
to the dataset equals the number of feature records returned by the backend
sample call, and the success message reports exactly that count. (In the
sampler tool a save happens exactly when the stripped caption is
nonempty.) -/
theorem saved_row_count_matches_feature_count
    (thumb sc : Nat) (caption : String) (feats : List Feature)
    (stP : PickerState) (sample : Unit → List Feature) (stS : SentinelState)
    (hc : strip caption ≠ "") :
    ((savePicker thumb sc caption feats stP).1.records.length
        = stP.records.length + feats.length
      ∧ (savePicker thumb sc caption feats stP).2
        = successMessage feats.length caption)
    ∧ ((saveSentinel thumb sc caption sample stS).1.records.length
        = stS.records.length + (sample ()).length
      ∧ (saveSentinel thumb sc caption sample stS).2
        = .success (successMessage (sample ()).length caption)) := by
  refine ⟨⟨?_, rfl⟩, ?_, ?_⟩
  · simp [savePicker]
  · simp [saveSentinel, hc]
  · simp [saveSentinel, hc]

/-- Witness for C1 at a concrete caption, feature list and state. -/
theorem saved_row_count_matches_feature_count_witness :
    ((savePicker 1000 100 "hello" [testFeat] pickerSt0).1.records.length
        = pickerSt0.records.length + [testFeat].length
      ∧ (savePicker 1000 100 "hello" [testFeat] pickerSt0).2
        = successMessage [testFeat].length "hello")
    ∧ ((saveSentinel 1000 100 "hello" (fun _ => [testFeat]) sentinelSt0).1.records.length
        = sentinelSt0.records.length + [testFeat].length
      ∧ (saveSentinel 1000 100 "hello" (fun _ => [testFeat]) sentinelSt0).2
        = .success (successMessage [testFeat].length "hello")) :=
  saved_row_count_matches_feature_count 1000 100 "hello" [testFeat] pickerSt0
    (fun _ => [testFeat]) sentinelSt0 (by decide)

/-- C2: every record appended by a save, for every feature returned by the
backend, has an `alphaearth` embedding list of exactly 64 values, which is
the configured band name count. -/
theorem saved_embeddings_have_length_64
    (thumb sc : Nat) (caption : String) (feats : List Feature)
    (stP : PickerState) (sample : Unit → List Feature) (stS : SentinelState) :
    band_names.length = 64
    ∧ (∀ r ∈ (savePicker thumb sc caption feats stP).1.records.drop
          stP.records.length, r.alphaearth.length = 64)
    ∧ (∀ r ∈ (saveSentinel thumb sc caption sample stS).1.records.drop
          stS.records.length, r.alphaearth.length = 64) := by
  refine ⟨by decide, ?_, ?_⟩
  · intro r hr
    have hrec : (savePicker thumb sc caption feats stP).1.records
        = stP.records ++ feats.map (mkRecord thumb sc caption) := rfl
    rw [hrec, List.drop_left] at hr
    obtain ⟨f, _, rfl⟩ := List.mem_map.mp hr
    exact mkRecord_alphaearth_length thumb sc caption f
  · intro r hr
    by_cases hc : strip caption = ""
    · have hst : (saveSentinel thumb sc caption sample stS).1 = stS := by
        simp [saveSentinel, hc]
      rw [hst, List.drop_length] at hr
      exact absurd hr (List.not_mem_nil r)
    · have hrec : (saveSentinel thumb sc caption sample stS).1.records
          = stS.records ++ (sample ()).map (mkRecord thumb sc caption) := by
        simp [saveSentinel, hc]
      rw [hrec, List.drop_left] at hr
      obtain ⟨f, _, rfl⟩ := List.mem_map.mp hr
      exact mkRecord_alphaearth_length thumb sc caption f

/-- Witness for C2 at a concrete saved record of each tool. -/
theorem saved_embeddings_have_length_64_witness :
    band_names.length = 64
    ∧ (mkRecord 1000 100 "hello" testFeat).alphaearth.length = 64
    ∧ (mkRecord 1000 100 "hello" testFeat).alphaearth.length = 64 :=
  ⟨(saved_embeddings_have_length_64 1000 100 "hello" [testFeat] pickerSt0
      (fun _ => [testFeat]) sentinelSt0).1,
   (saved_embeddings_have_length_64 1000 100 "hello" [testFeat] pickerSt0
      (fun _ => [testFeat]) sentinelSt0).2.1
     (mkRecord 1000 100 "hello" testFeat) (by decide),
   (saved_embeddings_have_length_64 1000 100 "hello" [testFeat] pickerSt0
      (fun _ => [testFeat]) sentinelSt0).2.2
     (mkRecord 1000 100 "hello" testFeat) (by decide)⟩

/-- C3: after every save, the JSON file and the parquet file are both fully
rewritten from the same in-memory records list, so they hold the same
records; the parquet rows correspond one-to-one, in order, to the JSON
array entries (in the sampler tool through the `save_parquet` column
projection). -/
theorem json_and_parquet_rewritten_in_sync
    (thumb sc : Nat) (caption : String) (feats : List Feature)
    (stP : PickerState) (sample : Unit → List Feature) (stS : SentinelState)
    (hc : strip caption ≠ "") :
    ((savePicker thumb sc caption feats stP).1.jsonFile
        = (savePicker thumb sc caption feats stP).1.records
      ∧ (savePicker thumb sc caption feats stP).1.parquetFile
        = (savePicker thumb sc caption feats stP).1.jsonFile)
    ∧ ((saveSentinel thumb sc caption sample stS).1.jsonFile
        = (saveSentinel thumb sc caption sample stS).1.records
      ∧ (saveSentinel thumb sc caption sample stS).1.parquetFile
        = save_parquet (saveSentinel thumb sc caption sample stS).1.jsonFile
      ∧ (saveSentinel thumb sc caption sample stS).1.parquetFile.length
        = (saveSentinel thumb sc caption sample stS).1.jsonFile.length
      ∧ ∀ i : Nat, (saveSentinel thumb sc caption sample stS).1.parquetFile[i]?
        = ((saveSentinel thumb sc caption sample stS).1.jsonFile[i]?).map
            toParquetRow) := by
  refine ⟨⟨rfl, rfl⟩, ?_, ?_, ?_, ?_⟩
  · simp [saveSentinel, hc]
  · simp [saveSentinel, hc]
  · simp [saveSentinel, hc, save_parquet]
  · intro i
    have hp : (saveSentinel thumb sc caption sample stS).1.parquetFile
        = save_parquet (saveSentinel thumb sc caption sample stS).1.jsonFile := by
      simp [saveSentinel, hc]
    rw [hp]
    simp only [save_parquet, List.getElem?_map]

/-- Witness for C3 at a concrete save of each tool. -/
theorem json_and_parquet_rewritten_in_sync_witness :
    ((savePicker 1000 100 "hello" [testFeat] pickerSt0).1.jsonFile
        = (savePicker 1000 100 "hello" [testFeat] pickerSt0).1.records
      ∧ (savePicker 1000 100 "hello" [testFeat] pickerSt0).1.parquetFile
        = (savePicker 1000 100 "hello" [testFeat] pickerSt0).1.jsonFile)
    ∧ ((saveSentinel 1000 100 "hello" (fun _ => [testFeat]) sentinelSt0).1.jsonFile
        = (saveSentinel 1000 100 "hello" (fun _ => [testFeat]) sentinelSt0).1.records
      ∧ (saveSentinel 1000 100 "hello" (fun _ => [testFeat]) sentinelSt0).1.parquetFile
        = save_parquet
            (saveSentinel 1000 100 "hello" (fun _ => [testFeat]) sentinelSt0).1.jsonFile
      ∧ (saveSentinel 1000 100 "hello" (fun _ => [testFeat]) sentinelSt0).1.parquetFile.length
        = (saveSentinel 1000 100 "hello" (fun _ => [testFeat]) sentinelSt0).1.jsonFile.length
      ∧ ∀ i : Nat,
          (saveSentinel 1000 100 "hello" (fun _ => [testFeat]) sentinelSt0).1.parquetFile[i]?
        = ((saveSentinel 1000 100 "hello" (fun _ => [testFeat]) sentinelSt0).1.jsonFile[i]?).map
            toParquetRow) :=
  json_and_parquet_rewritten_in_sync 1000 100 "hello" [testFeat] pickerSt0
    (fun _ => [testFeat]) sentinelSt0 (by decide)

/-- C4: records are append-only: every save leaves all previously
accumulated records unchanged in content and position and only adds new
records at the end; neither handler updates or deletes an existing
record. -/
theorem records_append_only
    (thumb sc : Nat) (caption : String) (feats : List Feature)
    (stP : PickerState) (sample : Unit → List Feature) (stS : SentinelState) :
    ((savePicker thumb sc caption feats stP).1.records
        = stP.records ++ feats.map (mkRecord thumb sc caption))
    ∧ (∀ i, i < stP.records.length →
        (savePicker thumb sc caption feats stP).1.records[i]? = stP.records[i]?)
    ∧ (∃ appended, (saveSentinel thumb sc caption sample stS).1.records
        = stS.records ++ appended)
    ∧ (∀ i, i < stS.records.length →
        (saveSentinel thumb sc caption sample stS).1.records[i]?
          = stS.records[i]?) := by
  refine ⟨rfl, ?_, ?_, ?_⟩
  · intro i hi
    have hrec : (savePicker thumb sc caption feats stP).1.records
        = stP.records ++ feats.map (mkRecord thumb sc caption) := rfl
    rw [hrec, List.getElem?_append]
    simp [hi]
  · by_cases hc : strip caption = ""
    · exact ⟨[], by simp [saveSentinel, hc]⟩
    · exact ⟨(sample ()).map (mkRecord thumb sc caption),
        by simp [saveSentinel, hc]⟩
  · intro i hi
    by_cases hc : strip caption = ""
    · have hst : (saveSentinel thumb sc caption sample stS).1 = stS := by
        simp [saveSentinel, hc]
      rw [hst]
    · have hrec : (saveSentinel thumb sc caption sample stS).1.records
          = stS.records ++ (sample ()).map (mkRecord thumb sc caption) := by
        simp [saveSentinel, hc]
      rw [hrec, List.getElem?_append]
      simp [hi]

/-- Witness for C4 at a concrete save over a one-record dataset. -/
theorem records_append_only_witness :
    ((savePicker 1000 100 "hello" [testFeat] pickerSt0).1.records
        = pickerSt0.records ++ [testFeat].map (mkRecord 1000 100 "hello"))
    ∧ (savePicker 1000 100 "hello" [testFeat] pickerSt0).1.records[0]?
        = pickerSt0.records[0]?
    ∧ (∃ appended,
        (saveSentinel 1000 100 "hello" (fun _ => [testFeat]) sentinelSt0).1.records
          = sentinelSt0.records ++ appended)
    ∧ (saveSentinel 1000 100 "hello" (fun _ => [testFeat]) sentinelSt0).1.records[0]?
        = sentinelSt0.records[0]? := by
  obtain ⟨h1, h2, h3, h4⟩ := records_append_only 1000 100 "hello" [testFeat]
    pickerSt0 (fun _ => [testFeat]) sentinelSt0
  exact ⟨h1, h2 0 (by decide), h3, h4 0 (by decide)⟩

/-- C5 counterexample: with a nonempty feature set, saving the same feature
set a second time changes the persisted row count (it is 2 after two saves
of one feature, not 1), so re-saving is not idempotent in row count. -/
theorem resave_row_count_counterexample :
    ¬ ((savePicker 1000 100 "c" [testFeat]
          (savePicker 1000 100 "c" [testFeat]
            { records := [], jsonFile := [], parquetFile := [] }).1).1.records.length
        = (savePicker 1000 100 "c" [testFeat]
            { records := [], jsonFile := [], parquetFile := [] }).1.records.length) := by
  decide

/-- C5 amended: re-saving an identical feature set appends the feature count
again: the row count after the second save equals the count after the first
save plus the feature count, and it equals the first-save count exactly when
the feature set is empty. -/
theorem resave_adds_feature_count_again
    (thumb sc : Nat) (caption : String) (feats : List Feature)
    (stP : PickerState) (sample : Unit → List Feature) (stS : SentinelState)
    (hc : strip caption ≠ "") :
    ((savePicker thumb sc caption feats
          (savePicker thumb sc caption feats stP).1).1.records.length
        = (savePicker thumb sc caption feats stP).1.records.length + feats.length
      ∧ (((savePicker thumb sc caption feats
            (savePicker thumb sc caption feats stP).1).1.records.length
          = (savePicker thumb sc caption feats stP).1.records.length)
        ↔ feats = []))
    ∧ ((saveSentinel thumb sc caption sample
          (saveSentinel thumb sc caption sample stS).1).1.records.length
        = (saveSentinel thumb sc caption sample stS).1.records.length
            + (sample ()).length
      ∧ (((saveSentinel thumb sc caption sample
            (saveSentinel thumb sc caption sample stS).1).1.records.length
          = (saveSentinel thumb sc caption sample stS).1.records.length)
        ↔ sample () = [])) := by
  constructor
  · constructor
    · simp [savePicker]; omega
    · simp [savePicker, Nat.add_right_eq_self, List.length_eq_zero]
  · constructor
    · simp [saveSentinel, hc]; omega
    · simp [saveSentinel, hc, Nat.add_right_eq_self, List.length_eq_zero]

/-- Witness for the amended C5 at a concrete one-feature save. -/
theorem resave_adds_feature_count_again_witness :
    ((savePicker 1000 100 "c" [testFeat]
          (savePicker 1000 100 "c" [testFeat] pickerSt0).1).1.records.length
        = (savePicker 1000 100 "c" [testFeat] pickerSt0).1.records.length
            + [testFeat].length
      ∧ (((savePicker 1000 100 "c" [testFeat]
            (savePicker 1000 100 "c" [testFeat] pickerSt0).1).1.records.length
          = (savePicker 1000 100 "c" [testFeat] pickerSt0).1.records.length)
        ↔ [testFeat] = ([] : List Feature)))
    ∧ ((saveSentinel 1000 100 "c" (fun _ => [testFeat])
          (saveSentinel 1000 100 "c" (fun _ => [testFeat]) sentinelSt0).1).1.records.length
        = (saveSentinel 1000 100 "c" (fun _ => [testFeat]) sentinelSt0).1.records.length
            + [testFeat].length
      ∧ (((saveSentinel 1000 100 "c" (fun _ => [testFeat])
            (saveSentinel 1000 100 "c" (fun _ => [testFeat]) sentinelSt0).1).1.records.length
          = (saveSentinel 1000 100 "c" (fun _ => [testFeat]) sentinelSt0).1.records.length)
        ↔ [testFeat] = ([] : List Feature))) :=
  resave_adds_feature_count_again 1000 100 "c" [testFeat] pickerSt0
    (fun _ => [testFeat]) sentinelSt0 (by decide)

/-- A thumbnail attempt that does not produce the success result: a caught
exception, or a response failing the status or content-length check. -/
def thumbFails (t : ThumbAttempt) : Prop :=
  match t with
  | .exn => True
  | .resp r => ¬ (r.status = 200 ∧ 10000 < r.contentLen)

theorem grvpLoop_all_invalid (l : List DrawOutcome)
    (h : ∀ x ∈ l, ∃ dr, x = .ok dr ∧ dr.b4 = none) : grvpLoop l = .ok none := by
  induction l with
  | nil => rfl
  | cons x xs ih =>
    obtain ⟨dr, rfl, hb⟩ := h x (by simp)
    have hstep : grvpLoop (DrawOutcome.ok dr :: xs) = grvpLoop xs := by
      simp [grvpLoop, hb]
    rw [hstep]
    exact ih (fun y hy => h y (by simp [hy]))

theorem grvpLoop_ne_error_of_all_ok (l : List DrawOutcome)
    (h : ∀ x ∈ l, ∃ dr, x = .ok dr) : grvpLoop l ≠ .error () := by
  induction l with
  | nil => simp [grvpLoop]
  | cons x xs ih =>
    obtain ⟨dr, rfl⟩ := h x (by simp)
    by_cases hb : dr.b4.isSome
    · simp [grvpLoop, hb]
    · have hstep : grvpLoop (DrawOutcome.ok dr :: xs) = grvpLoop xs := by
        simp [grvpLoop, hb]
      rw [hstep]
      exact ih (fun y hy => h y (by simp [hy]))

theorem fetchLoop_all_fail (l : List ThumbAttempt)
    (h : ∀ x ∈ l, thumbFails x) : fetchLoop l = none := by
  induction l with
  | nil => rfl
  | cons x xs ih =>
    cases x with
    | exn =>
      have hstep : fetchLoop (ThumbAttempt.exn :: xs) = fetchLoop xs := rfl
      rw [hstep]
      exact ih (fun y hy => h y (by simp [hy]))
    | resp r =>
      have hr : ¬ (r.status = 200 ∧ 10000 < r.contentLen) := h (.resp r) (by simp)
      have hstep : fetchLoop (ThumbAttempt.resp r :: xs) = fetchLoop xs := by
        simp [fetchLoop, hr]
      rw [hstep]
      exact ih (fun y hy => h y (by simp [hy]))

theorem fetchLoop_some_valid (l : List ThumbAttempt) (r : ThumbResp)
    (h : fetchLoop l = some r) : r.status = 200 ∧ 10000 < r.contentLen := by
  induction l with
  | nil => exact absurd h (by simp [fetchLoop])
  | cons x xs ih =>
    cases x with
    | exn => exact ih h
    | resp q =>
      by_cases hq : q.status = 200 ∧ 10000 < q.contentLen
      · have : some q = some r := by rw [← h]; simp [fetchLoop, hq]
        cases this
        exact hq
      · have hstep : fetchLoop (ThumbAttempt.resp q :: xs) = fetchLoop xs := by
          simp [fetchLoop, hq]
        rw [hstep] at h
        exact ih h

/-- C6: both retry loops are bounded and always terminate (they are total
functions of the first `max_tries`, resp. `tries`, iteration outcomes):
`get_random_valid_point` inspects at most 6 draws and returns the
`(None, None, None, None)` sentinel when no draw has valid coverage, and
`fetch_valid_thumbnail` inspects at most 4 attempts and returns the
`(None, None)` sentinel when every attempt fails. -/
theorem retry_loops_bounded_and_sentinel :
    (∀ d d' : Nat → DrawOutcome, (∀ i, i < 6 → d i = d' i) →
      get_random_valid_point d = get_random_valid_point d')
    ∧ (∀ d : Nat → DrawOutcome,
        (∀ i, i < 6 → ∃ dr, d i = .ok dr ∧ dr.b4 = none) →
        get_random_valid_point d = .ok none)
    ∧ (∀ a a' : Nat → ThumbAttempt, (∀ i, i < 4 → a i = a' i) →
      fetch_valid_thumbnail a = fetch_valid_thumbnail a')
    ∧ (∀ a : Nat → ThumbAttempt, (∀ i, i < 4 → thumbFails (a i)) →
      fetch_valid_thumbnail a = none) := by
  refine ⟨?_, ?_, ?_, ?_⟩
  · intro d d' h
    unfold get_random_valid_point
    congr 1
    apply List.map_congr_left
    intro i hi
    exact h i (List.mem_range.mp hi)
  · intro d h
    apply grvpLoop_all_invalid
    intro x hx
    obtain ⟨i, hi, rfl⟩ := List.mem_map.mp hx
    exact h i (List.mem_range.mp hi)
  · intro a a' h
    unfold fetch_valid_thumbnail
    congr 1
    apply List.map_congr_left
    intro i hi
    exact h i (List.mem_range.mp hi)
  · intro a h
    apply fetchLoop_all_fail
    intro x hx
    obtain ⟨i, hi, rfl⟩ := List.mem_map.mp hx
    exact h i (List.mem_range.mp hi)

/-- Witness for C6: a run where every draw completes without coverage
returns the sentinel, and a run where every attempt raises returns the
sentinel. -/
theorem retry_loops_bounded_and_sentinel_witness :
    get_random_valid_point (fun _ => .ok { lon := 0, lat := 0, b4 := none })
      = get_random_valid_point (fun _ => .ok { lon := 0, lat := 0, b4 := none })
    ∧ get_random_valid_point (fun _ => .ok { lon := 0, lat := 0, b4 := none })
      = .ok none
    ∧ fetch_valid_thumbnail (fun _ => .exn)
      = fetch_valid_thumbnail (fun _ => .exn)
    ∧ fetch_valid_thumbnail (fun _ => .exn) = none := by
  obtain ⟨h1, h2, h3, h4⟩ := retry_loops_bounded_and_sentinel
  exact ⟨h1 _ _ (fun i _ => rfl),
    h2 _ (fun i _ => ⟨{ lon := 0, lat := 0, b4 := none }, rfl, rfl⟩),
    h3 _ _ (fun i _ => rfl),
    h4 _ (fun i _ => trivial)⟩

/-- C7 counterexample: a network error raised during the first random draw
is not caught anywhere in `get_random_valid_point` and propagates out of
the operation as an uncaught exception, contradicting the claim that every
backend failure during random-point search is handled inside the
interaction. -/
theorem random_point_error_propagates_counterexample :
    get_random_valid_point (fun _ => DrawOutcome.throw) = .error () := rfl

/-- C7 amended: during thumbnail fetch every failure is caught inside
`fetch_valid_thumbnail` (success is returned only for a valid response;
a run of caught exceptions ends in the `(None, None)` sentinel, which the
top level handles by warning and drawing a new random sample); during
random-point search only the empty-result case (no valid coverage) is
handled, by drawing again a bounded number of times — draws that complete
never propagate an error, but a network error raised during a draw is not
caught and propagates out of `get_random_valid_point`. -/
theorem backend_failure_handling_amended :
    (∀ a : Nat → ThumbAttempt, ∀ r, fetch_valid_thumbnail a = some r →
      r.status = 200 ∧ 10000 < r.contentLen)
    ∧ (∀ a : Nat → ThumbAttempt, (∀ i, i < 4 → a i = .exn) →
      fetch_valid_thumbnail a = none)
    ∧ (∀ d : Nat → DrawOutcome, (∀ i, i < 6 → ∃ dr, d i = .ok dr) →
      get_random_valid_point d ≠ .error ())
    ∧ (∀ d : Nat → DrawOutcome, d 0 = .throw →
      get_random_valid_point d = .error ()) := by
  refine ⟨?_, ?_, ?_, ?_⟩
  · intro a r h
    exact fetchLoop_some_valid _ r h
  · intro a h
    apply fetchLoop_all_fail
    intro x hx
    obtain ⟨i, hi, rfl⟩ := List.mem_map.mp hx
    rw [h i (List.mem_range.mp hi)]
    trivial
  · intro d h
    apply grvpLoop_ne_error_of_all_ok
    intro x hx
    obtain ⟨i, hi, rfl⟩ := List.mem_map.mp hx
    exact h i (List.mem_range.mp hi)
  · intro d h
    unfold get_random_valid_point
    have hmap : (List.range 6).map d = DrawOutcome.throw :: ([1, 2, 3, 4, 5].map d) := by
      rw [show List.range 6 = 0 :: [1, 2, 3, 4, 5] from rfl]
      simp [h]
    rw [hmap]
    rfl

/-- Witness for the amended C7: a valid response is returned as success; an
all-exception run ends in the caught sentinel; completing draws never
propagate; a throwing first draw propagates. -/
theorem backend_failure_handling_amended_witness :
    ({ status := 200, contentLen := 20000 } : ThumbResp).status = 200
      ∧ 10000 < ({ status := 200, contentLen := 20000 } : ThumbResp).contentLen
    ∧ fetch_valid_thumbnail (fun _ => .exn) = none
    ∧ get_random_valid_point (fun _ => .ok { lon := 0, lat := 0, b4 := none })
        ≠ .error ()
    ∧ get_random_valid_point (fun _ => DrawOutcome.throw) = .error () := by
  obtain ⟨h1, h2, h3, h4⟩ := backend_failure_handling_amended
  have hv := h1 (fun _ => .resp { status := 200, contentLen := 20000 })
    { status := 200, contentLen := 20000 } (by decide)
  exact ⟨hv.1, hv.2, h2 _ (fun i _ => rfl),
    h3 _ (fun i _ => ⟨{ lon := 0, lat := 0, b4 := none }, rfl⟩),
    h4 _ rfl⟩

/-- C8: in the sampler tool, pressing Submit with an empty or
whitespace-only caption changes no state: the handler returns the state
unchanged with only a warning, and its result does not depend on the
backend sample thunk (so no sample call is made, nothing is appended and
neither file is rewritten); the click-picker tool imposes no such
restriction and saves records even for an empty caption. -/
theorem empty_caption_changes_nothing
    (thumb sc : Nat) (caption : String) (sample sampleB : Unit → List Feature)
    (stS : SentinelState) (hc : strip caption = "")
    (feats : List Feature) (stP : PickerState) :
    saveSentinel thumb sc caption sample stS
        = (stS, .warning "Enter a caption before submitting.")
    ∧ saveSentinel thumb sc caption sample stS
        = saveSentinel thumb sc caption sampleB stS
    ∧ (savePicker thumb sc "" feats stP).1.records.length
        = stP.records.length + feats.length := by
  refine ⟨?_, ?_, ?_⟩
  · simp [saveSentinel, hc]
  · simp [saveSentinel, hc]
  · simp [savePicker]

/-- Witness for C8 at a whitespace-only caption and two distinct backend
thunks. -/
theorem empty_caption_changes_nothing_witness :
    saveSentinel 1000 100 " " (fun _ => [testFeat]) sentinelSt0
        = (sentinelSt0, .warning "Enter a caption before submitting.")
    ∧ saveSentinel 1000 100 " " (fun _ => [testFeat]) sentinelSt0
        = saveSentinel 1000 100 " " (fun _ => []) sentinelSt0
    ∧ (savePicker 1000 100 "" [testFeat] pickerSt0).1.records.length
        = pickerSt0.records.length + [testFeat].length :=
  empty_caption_changes_nothing 1000 100 " " (fun _ => [testFeat]) (fun _ => [])
    sentinelSt0 (by decide) [testFeat] pickerSt0

/-- C9: in every record appended by either tool, the caption field equals
the user-entered caption with leading and trailing whitespace stripped, and
stripping a persisted caption again changes nothing (persisted captions
carry no surrounding whitespace). -/
theorem saved_caption_is_stripped
    (thumb sc : Nat) (caption : String) (feats : List Feature)
    (stP : PickerState) (sample : Unit → List Feature) (stS : SentinelState) :
    (∀ r ∈ (savePicker thumb sc caption feats stP).1.records.drop
        stP.records.length,
      r.caption = strip caption ∧ strip r.caption = r.caption)
    ∧ (∀ r ∈ (saveSentinel thumb sc caption sample stS).1.records.drop
        stS.records.length,
      r.caption = strip caption ∧ strip r.caption = r.caption) := by
  constructor
  · intro r hr
    have hrec : (savePicker thumb sc caption feats stP).1.records
        = stP.records ++ feats.map (mkRecord thumb sc caption) := rfl
    rw [hrec, List.drop_left] at hr
    obtain ⟨f, _, rfl⟩ := List.mem_map.mp hr
    exact ⟨rfl, strip_strip caption⟩
  · intro r hr
    by_cases hc : strip caption = ""
    · have hst : (saveSentinel thumb sc caption sample stS).1 = stS := by
        simp [saveSentinel, hc]
      rw [hst, List.drop_length] at hr
      exact absurd hr (List.not_mem_nil r)
    · have hrec : (saveSentinel thumb sc caption sample stS).1.records
          = stS.records ++ (sample ()).map (mkRecord thumb sc caption) := by
        simp [saveSentinel, hc]
      rw [hrec, List.drop_left] at hr
      obtain ⟨f, _, rfl⟩ := List.mem_map.mp hr
      exact ⟨rfl, strip_strip caption⟩

/-- Witness for C9 at a caption with surrounding whitespace. -/
theorem saved_caption_is_stripped_witness :
    ((mkRecord 1000 100 " hi " testFeat).caption = strip " hi "
      ∧ strip (mkRecord 1000 100 " hi " testFeat).caption
        = (mkRecord 1000 100 " hi " testFeat).caption)
    ∧ ((mkRecord 1000 100 " hi " testFeat).caption = strip " hi "
      ∧ strip (mkRecord 1000 100 " hi " testFeat).caption
        = (mkRecord 1000 100 " hi " testFeat).caption) :=
  ⟨(saved_caption_is_stripped 1000 100 " hi " [testFeat] pickerSt0
      (fun _ => [testFeat]) sentinelSt0).1
    (mkRecord 1000 100 " hi " testFeat) (by decide),
   (saved_caption_is_stripped 1000 100 " hi " [testFeat] pickerSt0
      (fun _ => [testFeat]) sentinelSt0).2
    (mkRecord 1000 100 " hi " testFeat) (by decide)⟩

theorem lookup_eq_none_of_all_keys_ne {α β : Type} [BEq α] [LawfulBEq α]
    (l : List (α × β)) (b : α) (h : ∀ p ∈ l, p.1 ≠ b) : l.lookup b = none := by
  induction l with
  | nil => rfl
  | cons x xs ih =>
    cases x with
    | mk k v =>
      have hk : k ≠ b := h (k, v) (by simp)
      have hbk : (b == k) = false := by
        simp only [beq_eq_false_iff_ne]
        exact fun hbk => hk hbk.symm
      simp only [List.lookup, hbk]
      exact ih (fun p hp => h p (by simp [hp]))

/-- C10: record construction is total in the feature properties: a band
name missing from the property dictionary yields `None` at that position of
the embedding list (the `dict.get` lookup never raises), so a save never
fails on a feature that lacks some of the 64 bands. -/
theorem missing_band_yields_none
    (thumb sc : Nat) (caption : String) (f : Feature) (i : Nat)
    (hi : i < 64) (hmiss : ∀ p ∈ f.properties, p.1 ≠ bandName i) :
    (mkRecord thumb sc caption f).alphaearth[i]? = some none := by
  have h1 : (mkRecord thumb sc caption f).alphaearth
      = band_names.map (lookupProp f.properties) := rfl
  rw [h1, List.getElem?_map]
  have h2 : band_names[i]? = some (bandName i) := by
    rw [band_names, List.getElem?_map]
    simp [hi]
  rw [h2]
  show some (lookupProp f.properties (bandName i)) = some none
  exact congrArg some (lookup_eq_none_of_all_keys_ne f.properties (bandName i) hmiss)

/-- Witness for C10: the test feature carries only bands A00 and A01, and
its record holds `None` at position 2 (band A02). -/
theorem missing_band_yields_none_witness :
    (mkRecord 1000 100 "hello" testFeat).alphaearth[2]? = some none :=
  missing_band_yields_none 1000 100 "hello" testFeat 2 (by decide) (by decide)
example :
    get_random_valid_point (fun _ => .ok { lon := 0, lat := 0, b4 := none }) =
      .ok none := rfl
example : get_random_valid_point (fun _ => .throw) = .error () := rfl
example : fetch_valid_thumbnail (fun _ => .exn) = none := by decide
example :
    fetch_valid_thumbnail
      (fun _ => .resp { status := 200, contentLen := 20000 }) =
      some { status := 200, contentLen := 20000 } := by decide
